import Mathlib

/-!
Shallow embedding of `src/verify_hmac_v1.py` (pwappshub/pwgft), a CLI tool
that verifies a provably-fair HMAC-SHA256 commitment.

The Python script calls the standard library (`hashlib.sha256`, `hmac.new`,
`json.loads`, `str.lower`, `str.encode`).  Those primitives are embedded here
by their defining standards: SHA-256 per FIPS 180-4, HMAC per RFC 2104 with a
64-byte block, UTF-8 per RFC 3629, and `str.lower` as ASCII lowercasing
(Python's `str.lower` agrees with this on ASCII input, the only input the
comparisons in this program are specified on).  Bytes are `Nat` values kept
below 256 by explicit `% 256`, and 32-bit words are `Nat` values kept below
2^32 by explicit `% 4294967296`.
-/

namespace VerifyHmacV1

/-- 2^32, the modulus of SHA-256 word arithmetic. -/
def pow32 : Nat := 4294967296

/-- Right rotation of a 32-bit word (input assumed < 2^32). -/
def rotr32 (n x : Nat) : Nat :=
  ((x >>> n) ||| (x <<< (32 - n))) % pow32

/-- Bitwise complement of a 32-bit word. -/
def not32 (x : Nat) : Nat := (pow32 - 1) ^^^ x

/-- FIPS 180-4 `Ch` function. -/
def ch32 (x y z : Nat) : Nat := (x &&& y) ^^^ (not32 x &&& z)

/-- FIPS 180-4 `Maj` function. -/
def maj32 (x y z : Nat) : Nat := (x &&& y) ^^^ (x &&& z) ^^^ (y &&& z)

/-- FIPS 180-4 `Σ₀`. -/
def bigSigma0 (x : Nat) : Nat := rotr32 2 x ^^^ rotr32 13 x ^^^ rotr32 22 x

/-- FIPS 180-4 `Σ₁`. -/
def bigSigma1 (x : Nat) : Nat := rotr32 6 x ^^^ rotr32 11 x ^^^ rotr32 25 x

/-- FIPS 180-4 `σ₀`. -/
def smallSigma0 (x : Nat) : Nat := rotr32 7 x ^^^ rotr32 18 x ^^^ (x >>> 3)

/-- FIPS 180-4 `σ₁`. -/
def smallSigma1 (x : Nat) : Nat := rotr32 17 x ^^^ rotr32 19 x ^^^ (x >>> 10)

/-- The 64 SHA-256 round constants (FIPS 180-4 §4.2.2), written in decimal. -/
def sha256K : List Nat :=
  [1116352408, 1899447441, 3049323471, 3921009573, 961987163,
   1508970993, 2453635748, 2870763221, 3624381080, 310598401,
   607225278, 1426881987, 1925078388, 2162078206, 2614888103,
   3248222580, 3835390401, 4022224774, 264347078, 604807628,
   770255983, 1249150122, 1555081692, 1996064986, 2554220882,
   2821834349, 2952996808, 3210313671, 3336571891, 3584528711,
   113926993, 338241895, 666307205, 773529912, 1294757372,
   1396182291, 1695183700, 1986661051, 2177026350, 2456956037,
   2730485921, 2820302411, 3259730800, 3345764771, 3516065817,
   3600352804, 4094571909, 275423344, 430227734, 506948616,
   659060556, 883997877, 958139571, 1322822218, 1537002063,
   1747873779, 1955562222, 2024104815, 2227730452, 2361852424,
   2428436474, 2756734187, 3204031479, 3329325298]

/-- The eight working variables of the SHA-256 compression function. -/
structure Sha256State where
  a : Nat
  b : Nat
  c : Nat
  d : Nat
  e : Nat
  f : Nat
  g : Nat
  h : Nat

/-- The SHA-256 initial hash value (FIPS 180-4 §5.3.3), written in decimal. -/
def sha256Init : Sha256State :=
  { a := 1779033703, b := 3144134277, c := 1013904242, d := 2773480762,
    e := 1359893119, f := 2600822924, g := 528734635, h := 1541459225 }

/-- Big-endian 4-byte serialization of a word; each byte is forced < 256. -/
def toBytesBE32 (w : Nat) : List Nat :=
  [w / 16777216 % 256, w / 65536 % 256, w / 256 % 256, w % 256]

/-- Big-endian 8-byte serialization of the message bit length. -/
def toBytesBE64 (n : Nat) : List Nat :=
  [n / 72057594037927936 % 256, n / 281474976710656 % 256,
   n / 1099511627776 % 256, n / 4294967296 % 256,
   n / 16777216 % 256, n / 65536 % 256, n / 256 % 256, n % 256]

/-- SHA-256 padding: append 0x80, zeros to 56 mod 64, then the 64-bit
big-endian bit length. -/
def padMessage (msg : List Nat) : List Nat :=
  msg ++ [128] ++ List.replicate ((119 - msg.length % 64) % 64) 0
      ++ toBytesBE64 (8 * msg.length)

/-- Split a byte list into 64-byte blocks; the fuel bounds the recursion depth
(structural recursion on the fuel keeps the function kernel-reducible). -/
def toBlocksAux : Nat → List Nat → List (List Nat)
  | 0, _ => []
  | fuel + 1, bs => if bs = [] then [] else bs.take 64 :: toBlocksAux fuel (bs.drop 64)

/-- Split a byte list into 64-byte blocks.  `bs.length` steps of fuel are
enough: every step consumes at least one byte. -/
def toBlocks (bs : List Nat) : List (List Nat) := toBlocksAux bs.length bs

/-- The first 16 message-schedule words of a 64-byte block (big-endian). -/
def blockWords (block : List Nat) : List Nat :=
  (List.range 16).map fun i =>
    block.getD (4 * i) 0 * 16777216 + block.getD (4 * i + 1) 0 * 65536 +
      block.getD (4 * i + 2) 0 * 256 + block.getD (4 * i + 3) 0

/-- Extend the message schedule by `n` words; `acc` holds the schedule so far
in reverse order, so indices 1, 6, 14, 15 are W[t-2], W[t-7], W[t-15], W[t-16]. -/
def scheduleAux : Nat → List Nat → List Nat
  | 0, acc => acc
  | n + 1, acc =>
      let w := (smallSigma1 (acc.getD 1 0) + acc.getD 6 0 +
                smallSigma0 (acc.getD 14 0) + acc.getD 15 0) % pow32
      scheduleAux n (w :: acc)

/-- The full 64-word message schedule of a block. -/
def schedule (block : List Nat) : List Nat :=
  (scheduleAux 48 (blockWords block).reverse).reverse

/-- One SHA-256 round: `kw` is the pair (round constant, schedule word). -/
def sha256Round (s : Sha256State) (kw : Nat × Nat) : Sha256State :=
  let t1 := (s.h + bigSigma1 s.e + ch32 s.e s.f s.g + kw.1 + kw.2) % pow32
  let t2 := (bigSigma0 s.a + maj32 s.a s.b s.c) % pow32
  { a := (t1 + t2) % pow32, b := s.a, c := s.b, d := s.c,
    e := (s.d + t1) % pow32, f := s.e, g := s.f, h := s.g }

/-- Compress one 64-byte block into the chaining state. -/
def compressBlock (s : Sha256State) (block : List Nat) : Sha256State :=
  let t := (sha256K.zip (schedule block)).foldl sha256Round s
  { a := (s.a + t.a) % pow32, b := (s.b + t.b) % pow32,
    c := (s.c + t.c) % pow32, d := (s.d + t.d) % pow32,
    e := (s.e + t.e) % pow32, f := (s.f + t.f) % pow32,
    g := (s.g + t.g) % pow32, h := (s.h + t.h) % pow32 }

/-- Serialize the final state to the 32-byte digest. -/
def digestBytes (s : Sha256State) : List Nat :=
  toBytesBE32 s.a ++ toBytesBE32 s.b ++ toBytesBE32 s.c ++ toBytesBE32 s.d ++
  toBytesBE32 s.e ++ toBytesBE32 s.f ++ toBytesBE32 s.g ++ toBytesBE32 s.h

/-- SHA-256 of a byte list (FIPS 180-4), as the embedding of
`hashlib.sha256(data).digest()`. -/
def sha256Bytes (msg : List Nat) : List Nat :=
  digestBytes ((toBlocks (padMessage msg)).foldl compressBlock sha256Init)

/-- HMAC-SHA256 (RFC 2104) with the 64-byte SHA-256 block size, the embedding
of `hmac.new(key, msg, hashlib.sha256).digest()`. -/
def hmacSha256 (key msg : List Nat) : List Nat :=
  let k0 := if 64 < key.length then sha256Bytes key else key
  let kpad := k0 ++ List.replicate (64 - k0.length) 0
  let ipadKey := kpad.map fun b => b ^^^ 54
  let opadKey := kpad.map fun b => b ^^^ 92
  sha256Bytes (opadKey ++ sha256Bytes (ipadKey ++ msg))

/-- Lowercase hex digit for a nibble. -/
def hexChar (n : Nat) : Char :=
  if n < 10 then Char.ofNat (48 + n) else Char.ofNat (87 + n)

/-- Two lowercase hex digits of one byte. -/
def byteToHex (b : Nat) : List Char := [hexChar (b / 16), hexChar (b % 16)]

/-- Lowercase hex string of a byte list, the embedding of `.hexdigest()`
(relative to `.digest()`). -/
def bytesToHexString (bs : List Nat) : String :=
  String.mk (bs.map byteToHex).flatten

/-- UTF-8 encoding of one scalar value (RFC 3629). -/
def utf8EncodeChar (c : Char) : List Nat :=
  let n := c.toNat
  if n < 128 then [n]
  else if n < 2048 then [192 + n / 64, 128 + n % 64]
  else if n < 65536 then [224 + n / 4096, 128 + n / 64 % 64, 128 + n % 64]
  else [240 + n / 262144, 128 + n / 4096 % 64, 128 + n / 64 % 64, 128 + n % 64]

/-- UTF-8 encoding of a string, the embedding of `s.encode("utf-8")`. -/
def utf8Encode (s : String) : List Nat :=
  (s.data.map utf8EncodeChar).flatten

/-- Embedding of `compute_hmac_sha256_hex` (src/verify_hmac_v1.py lines
34-44): lowercase hex HMAC-SHA256 of the UTF-8 payload keyed by the UTF-8
seed. -/
def compute_hmac_sha256_hex (seed msg : String) : String :=
  bytesToHexString (hmacSha256 (utf8Encode seed) (utf8Encode msg))

/-- ASCII lowercasing of one character.  Python's `str.lower` agrees with
this on ASCII strings, which is the only input class the program's
case-insensitive hex comparison is about. -/
def lowerChar (c : Char) : Char :=
  if 65 ≤ c.toNat ∧ c.toNat ≤ 90 then Char.ofNat (c.toNat + 32) else c

/-- Embedding of Python `s.lower()` (ASCII fragment). -/
def pyLower (s : String) : String := String.mk (s.data.map lowerChar)

/-- Parsed JSON documents, as produced by `json.loads`.  The numeric payload
of `num` is irrelevant to this program (a number is only ever rejected as
"not a string"), so it is modelled as an `Int`. -/
inductive Json where
  | null
  | bool (b : Bool)
  | num (n : Int)
  | str (s : String)
  | arr (elems : List Json)
  | obj (fields : List (String × Json))

/-- Lookup in a JSON object's field list.  `json.loads` builds a Python dict,
where a repeated key keeps its last occurrence, so the search prefers later
fields. -/
def lookupField (fields : List (String × Json)) (k : String) : Option Json :=
  match fields with
  | [] => none
  | (k2, v) :: rest =>
      match lookupField rest k with
      | some w => some w
      | none => if k2 = k then some v else none

/-- Embedding of `game.get("payload")` on a dict parsed from JSON: an absent
key yields Python `None`, and a JSON `null` value parses to Python `None` as
well, so the two are indistinguishable to the caller. -/
def pyGet (fields : List (String × Json)) (k : String) : Option Json :=
  match lookupField fields k with
  | none => none
  | some Json.null => none
  | some v => some v

/-- How a run of `load_payload` can end.  `fatalExit msg` is Python
`sys.exit(msg)` with a string argument: the message goes to stderr and the
process exit status is 1.  `uncaughtExc` is an uncaught Python exception
escaping `main`: a traceback goes to stderr and the exit status is 1. -/
inductive LoadResult where
  | ok (payload : String)
  | fatalExit (msg : String)
  | uncaughtExc (excName : String)

/-- What the filesystem and JSON parser handed the loader: either reading or
parsing the file raised an exception (file missing, unreadable, or JSON
syntax error — all caught by the `try` block around `json.loads`), or a
parsed document. -/
inductive LoadInput where
  | readError (excMsg : String)
  | parsed (doc : Json)

/-- Embedding of `load_payload` (src/verify_hmac_v1.py lines 51-75).
`game.get` is attribute lookup on the parse result: when the document's top
level is not an object (so not a Python dict), `.get` does not exist and an
`AttributeError` escapes uncaught, bypassing every `sys.exit` message of the
function. -/
def load_payload (path : String) (inp : LoadInput) : LoadResult :=
  match inp with
  | .readError exc =>
      .fatalExit ("Failed to read JSON file '" ++ path ++ "': " ++ exc)
  | .parsed (Json.obj fields) =>
      match pyGet fields "payload" with
      | none => .fatalExit "JSON file must contain \"payload\" field (string)"
      | some (Json.str s) => .ok s
      | some _ => .fatalExit "JSON \"payload\" field must be a string"
  | .parsed _ => .uncaughtExc "AttributeError"

/-- Observable outcome of one process run: the lines printed to stdout, the
process exit status, and the stderr message of `sys.exit` / an uncaught
exception (none on the report path). -/
structure RunResult where
  stdoutLines : List String
  exitCode : Nat
  stderrMsg : Option String

/-- The report-and-exit tail of `main` (src/verify_hmac_v1.py lines 95-107)
once a payload has been loaded: compute the commitment, compare it
case-insensitively with the `--hash` argument, print the five report lines,
and exit 0 on a match and 1 otherwise.  Python `print` with two arguments
joins them with one space. -/
def report (seed hashArg payload : String) : RunResult :=
  let expected := compute_hmac_sha256_hex seed payload
  { stdoutLines :=
      ["=== Provably Fair Verification ===",
       "Message : " ++ payload,
       "Computed: " ++ expected,
       "Provided: " ++ hashArg,
       "Result  : " ++ (if pyLower expected = pyLower hashArg then "VALID ✅" else "INVALID ❌")],
    exitCode := if pyLower expected = pyLower hashArg then 0 else 1,
    stderrMsg := none }

/-- Embedding of `main` (src/verify_hmac_v1.py lines 82-107) after argument
parsing, as a function of the three CLI strings and of what loading the file
produced.  `sys.exit(msg)` and an uncaught exception both terminate the
process with status 1 and nothing further on stdout. -/
def main_run (seed hashArg path : String) (inp : LoadInput) : RunResult :=
  match load_payload path inp with
  | .ok payload => report seed hashArg payload
  | .fatalExit msg => { stdoutLines := [], exitCode := 1, stderrMsg := some msg }
  | .uncaughtExc excName =>
      { stdoutLines := [], exitCode := 1, stderrMsg := some excName }

/-- The sixteen lowercase hex digits. -/
def hexDigits : List Char := "0123456789abcdef".data

theorem toBytesBE32_lt (w : Nat) : ∀ b ∈ toBytesBE32 w, b < 256 := by
  simp only [toBytesBE32, List.mem_cons, List.not_mem_nil, or_false]
  rintro b (rfl | rfl | rfl | rfl) <;> exact Nat.mod_lt _ (by norm_num)

theorem digestBytes_lt (s : Sha256State) : ∀ b ∈ digestBytes s, b < 256 := by
  intro b hb
  simp only [digestBytes, List.mem_append, or_assoc] at hb
  rcases hb with h | h | h | h | h | h | h | h <;> exact toBytesBE32_lt _ b h

theorem digestBytes_length (s : Sha256State) : (digestBytes s).length = 32 := rfl

theorem sha256Bytes_lt (m : List Nat) : ∀ b ∈ sha256Bytes m, b < 256 := digestBytes_lt _

theorem sha256Bytes_length (m : List Nat) : (sha256Bytes m).length = 32 := digestBytes_length _

theorem hmacSha256_lt (k m : List Nat) : ∀ b ∈ hmacSha256 k m, b < 256 := sha256Bytes_lt _

theorem hmacSha256_length (k m : List Nat) : (hmacSha256 k m).length = 32 := sha256Bytes_length _

theorem hexChar_mem_hexDigits : ∀ n < 16, hexChar n ∈ hexDigits := by decide

theorem byteToHex_chars (b : Nat) (hb : b < 256) : ∀ c ∈ byteToHex b, c ∈ hexDigits := by
  intro c hc
  simp only [byteToHex, List.mem_cons, List.not_mem_nil, or_false] at hc
  rcases hc with rfl | rfl
  · exact hexChar_mem_hexDigits _ (by omega)
  · exact hexChar_mem_hexDigits _ (Nat.mod_lt _ (by norm_num))

theorem flatten_byteToHex_length (bs : List Nat) :
    ((bs.map byteToHex).flatten).length = 2 * bs.length := by
  induction bs with
  | nil => rfl
  | cons b rest ih =>
      simp only [List.map_cons, List.flatten_cons, List.length_append, ih, byteToHex,
        List.length_cons, List.length_nil]
      omega

theorem bytesToHexString_length (bs : List Nat) :
    (bytesToHexString bs).length = 2 * bs.length :=
  flatten_byteToHex_length bs

theorem bytesToHexString_chars (bs : List Nat) (hbs : ∀ b ∈ bs, b < 256) :
    ∀ c ∈ (bytesToHexString bs).data, c ∈ hexDigits := by
  intro c hc
  have hc2 : c ∈ (bs.map byteToHex).flatten := hc
  rw [List.mem_flatten] at hc2
  obtain ⟨l, hl, hcl⟩ := hc2
  rw [List.mem_map] at hl
  obtain ⟨b, hb, rfl⟩ := hl
  exact byteToHex_chars b (hbs b hb) c hcl

theorem compute_hmac_length (seed msg : String) :
    (compute_hmac_sha256_hex seed msg).length = 64 := by
  show (bytesToHexString _).length = 64
  rw [bytesToHexString_length, hmacSha256_length]

theorem compute_chars_hex (seed msg : String) :
    ∀ c ∈ (compute_hmac_sha256_hex seed msg).data, c ∈ hexDigits :=
  bytesToHexString_chars _ (hmacSha256_lt _ _)

theorem lowerChar_fixes_hexDigit : ∀ c ∈ hexDigits, lowerChar c = c := by decide

theorem map_lowerChar_of_hex (l : List Char) (hl : ∀ c ∈ l, c ∈ hexDigits) :
    l.map lowerChar = l := by
  induction l with
  | nil => rfl
  | cons a t ih =>
      rw [List.map_cons, lowerChar_fixes_hexDigit a (hl a (List.mem_cons_self a t)),
        ih fun c hc => hl c (List.mem_cons_of_mem a hc)]

theorem pyLower_compute (seed msg : String) :
    pyLower (compute_hmac_sha256_hex seed msg) = compute_hmac_sha256_hex seed msg := by
  show String.mk _ = _
  rw [map_lowerChar_of_hex _ (compute_chars_hex seed msg)]

theorem pyLower_length (s : String) : (pyLower s).length = s.length := by
  show (s.data.map lowerChar).length = s.data.length
  exact List.length_map _ _

set_option maxRecDepth 10000 in
theorem sha256_abc_test_vector :
    bytesToHexString (sha256Bytes (utf8Encode "abc")) =
      "ba7816bf8f01cfea414140de5dae2223b00361a396177a9cb410ff61f20015ad" := by
  decide

set_option maxRecDepth 10000 in
theorem hmac_rfc4231_test_vector :
    bytesToHexString (hmacSha256 (utf8Encode "Jefe") (utf8Encode "what do ya want for nothing?")) =
      "5bdcc146bf60754e6a042426089575c75a003f089d2739839dec58b964ec3843" := by
  decide

/-- C1: when the payload loads successfully, the process exits 0 exactly when
the computed commitment equals the hash argument case-insensitively, exits 1
exactly when they differ, and no other exit status is possible on this path. -/
theorem c1_exit_status_contract (seed hashArg path : String) (inp : LoadInput)
    (payload : String) (hld : load_payload path inp = LoadResult.ok payload) :
    ((main_run seed hashArg path inp).exitCode = 0 ↔
      pyLower (compute_hmac_sha256_hex seed payload) = pyLower hashArg) ∧
    ((main_run seed hashArg path inp).exitCode = 1 ↔
      pyLower (compute_hmac_sha256_hex seed payload) ≠ pyLower hashArg) ∧
    ((main_run seed hashArg path inp).exitCode = 0 ∨
      (main_run seed hashArg path inp).exitCode = 1) := by
  by_cases hcmp : pyLower (compute_hmac_sha256_hex seed payload) = pyLower hashArg <;>
    (unfold main_run; rw [hld]; simp [report, hcmp])

/-- C1 witness: the contract instantiated at a concrete loading run. -/
theorem c1_exit_status_contract_witness :
    ((main_run "s" "h" "g.json" (LoadInput.parsed (Json.obj [("payload", Json.str "abc")]))).exitCode = 0 ↔
      pyLower (compute_hmac_sha256_hex "s" "abc") = pyLower "h") ∧
    ((main_run "s" "h" "g.json" (LoadInput.parsed (Json.obj [("payload", Json.str "abc")]))).exitCode = 1 ↔
      pyLower (compute_hmac_sha256_hex "s" "abc") ≠ pyLower "h") ∧
    ((main_run "s" "h" "g.json" (LoadInput.parsed (Json.obj [("payload", Json.str "abc")]))).exitCode = 0 ∨
      (main_run "s" "h" "g.json" (LoadInput.parsed (Json.obj [("payload", Json.str "abc")]))).exitCode = 1) :=
  c1_exit_status_contract "s" "h" "g.json" (LoadInput.parsed (Json.obj [("payload", Json.str "abc")])) "abc" rfl

/-- C2 counterexample: a fatal load failure exits with status 1, the very
status of a failed comparison, so fatal failures are not given an exit status
distinguished from both 0 and 1. -/
theorem c2_fatal_exit_equals_mismatch_exit :
    (main_run "s" "h" "game.json" (LoadInput.readError "No such file or directory")).exitCode = 1 ∧
    (main_run "s" "" "game.json" (LoadInput.parsed (Json.obj [("payload", Json.str "x")]))).exitCode = 1 := by
  constructor
  · rfl
  · show (report "s" "" "x").exitCode = 1
    unfold report
    have hne : pyLower (compute_hmac_sha256_hex "s" "x") ≠ pyLower "" := by
      intro heq
      have hlen := congrArg String.length heq
      rw [pyLower_length, pyLower_length, compute_hmac_length] at hlen
      exact absurd hlen (by decide)
    simp [hne]

/-- C2 (amended): every input error (missing or unreadable file, JSON parse
failure, missing or non-string payload field) terminates with exit status 1:
non-zero, hence distinct from the success status 0, but equal to the mismatch
status; the fatal path is distinguished from the comparison outcomes only by
its stderr message and by printing no report lines. -/
theorem c2_input_error_exit_one (seed hashArg path : String) (inp : LoadInput)
    (msg : String) (hld : load_payload path inp = LoadResult.fatalExit msg) :
    (main_run seed hashArg path inp).exitCode = 1 ∧
    (main_run seed hashArg path inp).exitCode ≠ 0 ∧
    (main_run seed hashArg path inp).stdoutLines = [] ∧
    (main_run seed hashArg path inp).stderrMsg = some msg := by
  unfold main_run
  rw [hld]
  simp

/-- C2 witness: a nonexistent file path, with the fatal message naming it. -/
theorem c2_input_error_exit_one_witness :
    (main_run "s" "h" "game.json" (LoadInput.readError "No such file or directory")).exitCode = 1 ∧
    (main_run "s" "h" "game.json" (LoadInput.readError "No such file or directory")).exitCode ≠ 0 ∧
    (main_run "s" "h" "game.json" (LoadInput.readError "No such file or directory")).stdoutLines = [] ∧
    (main_run "s" "h" "game.json" (LoadInput.readError "No such file or directory")).stderrMsg =
      some "Failed to read JSON file 'game.json': No such file or directory" :=
  c2_input_error_exit_one "s" "h" "game.json" (LoadInput.readError "No such file or directory")
    "Failed to read JSON file 'game.json': No such file or directory" rfl

/-- C3: the commitment equals the lowercase-hex rendering of HMAC-SHA256 over
the UTF-8 bytes of seed and payload, has exactly 64 characters, and every one
of its characters is a lowercase hex digit. -/
theorem c3_commitment_hmac_sha256_hex64 (seed payload : String) :
    compute_hmac_sha256_hex seed payload =
      bytesToHexString (hmacSha256 (utf8Encode seed) (utf8Encode payload)) ∧
    (compute_hmac_sha256_hex seed payload).length = 64 ∧
    ∀ c ∈ (compute_hmac_sha256_hex seed payload).data, c ∈ hexDigits :=
  ⟨rfl, compute_hmac_length seed payload, compute_chars_hex seed payload⟩

set_option maxRecDepth 10000 in
/-- C3 witness: the character bound applied at a concrete digest character. -/
theorem c3_commitment_hmac_sha256_hex64_witness :
    'b' ∈ (compute_hmac_sha256_hex "" "").data ∧ 'b' ∈ hexDigits :=
  ⟨by decide, (c3_commitment_hmac_sha256_hex64 "" "").2.2 'b' (by decide)⟩

/-- C4: the payload is extracted verbatim and hashed exactly as stored: the
loader returns the stored string itself, and the Computed report line carries
the commitment of that very string. -/
theorem c4_payload_verbatim (seed hashArg path : String) (fields : List (String × Json))
    (s : String) (hf : pyGet fields "payload" = some (Json.str s)) :
    load_payload path (LoadInput.parsed (Json.obj fields)) = LoadResult.ok s ∧
    main_run seed hashArg path (LoadInput.parsed (Json.obj fields)) = report seed hashArg s ∧
    (main_run seed hashArg path (LoadInput.parsed (Json.obj fields))).stdoutLines.getD 2 "" =
      "Computed: " ++ compute_hmac_sha256_hex seed s := by
  have hload : load_payload path (LoadInput.parsed (Json.obj fields)) = LoadResult.ok s := by
    simp only [load_payload, hf]
  refine ⟨hload, ?_, ?_⟩
  · unfold main_run
    rw [hload]
  · unfold main_run
    rw [hload]
    rfl

/-- C4 witness: a payload with inner and outer whitespace and mixed case is
used untouched. -/
theorem c4_payload_verbatim_witness :
    load_payload "g.json" (LoadInput.parsed (Json.obj [("payload", Json.str "  aBc  ")])) =
      LoadResult.ok "  aBc  " ∧
    main_run "s" "h" "g.json" (LoadInput.parsed (Json.obj [("payload", Json.str "  aBc  ")])) =
      report "s" "h" "  aBc  " ∧
    (main_run "s" "h" "g.json" (LoadInput.parsed (Json.obj [("payload", Json.str "  aBc  ")]))).stdoutLines.getD 2 "" =
      "Computed: " ++ compute_hmac_sha256_hex "s" "  aBc  " :=
  c4_payload_verbatim "s" "h" "g.json" [("payload", Json.str "  aBc  ")] "  aBc  " rfl

/-- C5 counterexample: the error texts the code prints are not the ones the
claim quotes: the missing-field message is "JSON file must contain \"payload\"
field (string)", not "missing payload field.", and the wrong-type message is
"JSON \"payload\" field must be a string", not "payload must be a string.". -/
theorem c5_message_texts_differ :
    load_payload "game.json" (LoadInput.parsed (Json.obj [])) =
      LoadResult.fatalExit "JSON file must contain \"payload\" field (string)" ∧
    "JSON file must contain \"payload\" field (string)" ≠ "missing payload field." ∧
    load_payload "game.json" (LoadInput.parsed (Json.obj [("payload", Json.num 7)])) =
      LoadResult.fatalExit "JSON \"payload\" field must be a string" ∧
    "JSON \"payload\" field must be a string" ≠ "payload must be a string." :=
  ⟨rfl, by decide, rfl, by decide⟩

/-- C5 (amended): a document without a usable payload terminates with the
message "JSON file must contain \"payload\" field (string)", and a present
non-string payload with "JSON \"payload\" field must be a string"; both paths
exit with the non-zero status 1, print no report line, and produce the same
outcome record for every seed and hash argument, so neither the HMAC
computation nor the comparison takes part. -/
theorem c5_payload_field_errors (seed hashArg path : String)
    (fields : List (String × Json)) :
    (pyGet fields "payload" = none →
      main_run seed hashArg path (LoadInput.parsed (Json.obj fields)) =
        { stdoutLines := [], exitCode := 1,
          stderrMsg := some "JSON file must contain \"payload\" field (string)" }) ∧
    (∀ v, pyGet fields "payload" = some v → (∀ s, v ≠ Json.str s) →
      main_run seed hashArg path (LoadInput.parsed (Json.obj fields)) =
        { stdoutLines := [], exitCode := 1,
          stderrMsg := some "JSON \"payload\" field must be a string" }) := by
  constructor
  · intro hnone
    simp only [main_run, load_payload, hnone]
  · intro v hv hns
    cases v with
    | str s => exact absurd rfl (hns s)
    | null => simp only [main_run, load_payload, hv]
    | bool b => simp only [main_run, load_payload, hv]
    | num n => simp only [main_run, load_payload, hv]
    | arr elems => simp only [main_run, load_payload, hv]
    | obj fs => simp only [main_run, load_payload, hv]

/-- C5 witness: an empty object and a numeric payload, at concrete inputs. -/
theorem c5_payload_field_errors_witness :
    main_run "s" "h" "g.json" (LoadInput.parsed (Json.obj [])) =
      { stdoutLines := [], exitCode := 1,
        stderrMsg := some "JSON file must contain \"payload\" field (string)" } ∧
    main_run "s" "h" "g.json" (LoadInput.parsed (Json.obj [("payload", Json.num 7)])) =
      { stdoutLines := [], exitCode := 1,
        stderrMsg := some "JSON \"payload\" field must be a string" } :=
  ⟨(c5_payload_field_errors "s" "h" "g.json" []).1 rfl,
   (c5_payload_field_errors "s" "h" "g.json" [("payload", Json.num 7)]).2 (Json.num 7) rfl
     (fun _ hs => Json.noConfusion hs)⟩

/-- C6: the verification outcome is invariant under the letter-casing of the
hash argument: case-equivalent hash arguments give the same exit status and
the same Result line, and the run exits 0 exactly when the computed digest is
the lowercase form of the hash argument, whatever its casing. -/
theorem c6_hash_case_insensitive (seed payload h1 h2 : String)
    (hcase : pyLower h1 = pyLower h2) :
    (report seed h1 payload).exitCode = (report seed h2 payload).exitCode ∧
    (report seed h1 payload).stdoutLines.getD 4 "" =
      (report seed h2 payload).stdoutLines.getD 4 "" ∧
    ((report seed h1 payload).exitCode = 0 ↔
      compute_hmac_sha256_hex seed payload = pyLower h1) := by
  unfold report
  simp only [pyLower_compute, hcase]
  by_cases hm : compute_hmac_sha256_hex seed payload = pyLower h2 <;> simp [hm]

/-- C6 witness: the all-uppercase and all-lowercase spellings of the digest of
seed s3cr3t and payload abc behave identically. -/
theorem c6_hash_case_insensitive_witness :
    (report "s3cr3t" "E7B80919C51385B9E86C3363C73F85CD015222E4D4EB945082D61D7B21EB8241" "abc").exitCode =
      (report "s3cr3t" "e7b80919c51385b9e86c3363c73f85cd015222e4d4eb945082d61d7b21eb8241" "abc").exitCode ∧
    (report "s3cr3t" "E7B80919C51385B9E86C3363C73F85CD015222E4D4EB945082D61D7B21EB8241" "abc").stdoutLines.getD 4 "" =
      (report "s3cr3t" "e7b80919c51385b9e86c3363c73f85cd015222e4d4eb945082d61d7b21eb8241" "abc").stdoutLines.getD 4 "" ∧
    ((report "s3cr3t" "E7B80919C51385B9E86C3363C73F85CD015222E4D4EB945082D61D7B21EB8241" "abc").exitCode = 0 ↔
      compute_hmac_sha256_hex "s3cr3t" "abc" =
        pyLower "E7B80919C51385B9E86C3363C73F85CD015222E4D4EB945082D61D7B21EB8241") :=
  c6_hash_case_insensitive "s3cr3t" "abc"
    "E7B80919C51385B9E86C3363C73F85CD015222E4D4EB945082D61D7B21EB8241"
    "e7b80919c51385b9e86c3363c73f85cd015222e4d4eb945082d61d7b21eb8241" (by decide)

/-- C7: the commitment is a pure function of (seed, payload): identical
inputs always yield an identical output string. -/
theorem c7_commitment_deterministic (s1 p1 s2 p2 : String)
    (hs : s1 = s2) (hp : p1 = p2) :
    compute_hmac_sha256_hex s1 p1 = compute_hmac_sha256_hex s2 p2 := by
  rw [hs, hp]

/-- C7 witness: determinism at a concrete (seed, payload) pair. -/
theorem c7_commitment_deterministic_witness :
    compute_hmac_sha256_hex "s3cr3t" "abc" = compute_hmac_sha256_hex "s3cr3t" "abc" :=
  c7_commitment_deterministic "s3cr3t" "abc" "s3cr3t" "abc" rfl rfl

/-- C8: on a successful load, stdout is exactly the five labeled lines in
order; the Provided line carries the hash argument verbatim, the Result line
shows VALID exactly on a case-insensitive match, and the Computed line's
digest is already lowercase (lowercasing fixes it). -/
theorem c8_stdout_report (seed hashArg path : String) (inp : LoadInput) (payload : String)
    (hld : load_payload path inp = LoadResult.ok payload) :
    (main_run seed hashArg path inp).stdoutLines =
      ["=== Provably Fair Verification ===",
       "Message : " ++ payload,
       "Computed: " ++ compute_hmac_sha256_hex seed payload,
       "Provided: " ++ hashArg,
       "Result  : " ++ (if pyLower (compute_hmac_sha256_hex seed payload) = pyLower hashArg
          then "VALID ✅" else "INVALID ❌")] ∧
    pyLower (compute_hmac_sha256_hex seed payload) = compute_hmac_sha256_hex seed payload := by
  refine ⟨?_, pyLower_compute seed payload⟩
  unfold main_run
  rw [hld]
  rfl

/-- C8 witness: the report lines at a concrete loading run. -/
theorem c8_stdout_report_witness :
    (main_run "s" "h" "g.json" (LoadInput.parsed (Json.obj [("payload", Json.str "abc")]))).stdoutLines =
      ["=== Provably Fair Verification ===",
       "Message : " ++ "abc",
       "Computed: " ++ compute_hmac_sha256_hex "s" "abc",
       "Provided: " ++ "h",
       "Result  : " ++ (if pyLower (compute_hmac_sha256_hex "s" "abc") = pyLower "h"
          then "VALID ✅" else "INVALID ❌")] ∧
    pyLower (compute_hmac_sha256_hex "s" "abc") = compute_hmac_sha256_hex "s" "abc" :=
  c8_stdout_report "s" "h" "g.json" (LoadInput.parsed (Json.obj [("payload", Json.str "abc")])) "abc" rfl

/-- C9: a payload field holding JSON null takes the missing-field error path
(null parses to Python None, indistinguishable from an absent key at
`dict.get`), not the wrong-type path. -/
theorem c9_null_payload_missing_path (path : String) (fields : List (String × Json))
    (hf : lookupField fields "payload" = some Json.null) :
    load_payload path (LoadInput.parsed (Json.obj fields)) =
      LoadResult.fatalExit "JSON file must contain \"payload\" field (string)" ∧
    load_payload path (LoadInput.parsed (Json.obj fields)) ≠
      LoadResult.fatalExit "JSON \"payload\" field must be a string" := by
  have hget : pyGet fields "payload" = none := by
    unfold pyGet
    rw [hf]
  have hload : load_payload path (LoadInput.parsed (Json.obj fields)) =
      LoadResult.fatalExit "JSON file must contain \"payload\" field (string)" := by
    simp only [load_payload, hget]
  refine ⟨hload, ?_⟩
  rw [hload]
  intro hcontra
  injection hcontra with hmsg
  exact absurd hmsg (by decide)

/-- C9 witness: a document whose only field is a null payload. -/
theorem c9_null_payload_missing_path_witness :
    load_payload "g.json" (LoadInput.parsed (Json.obj [("payload", Json.null)])) =
      LoadResult.fatalExit "JSON file must contain \"payload\" field (string)" ∧
    load_payload "g.json" (LoadInput.parsed (Json.obj [("payload", Json.null)])) ≠
      LoadResult.fatalExit "JSON \"payload\" field must be a string" :=
  c9_null_payload_missing_path "g.json" [("payload", Json.null)] rfl

/-- C10: a parsed document whose top level is not an object makes the loader
raise an uncaught AttributeError (a non-dict value has no `.get`), escaping
every descriptive error-message path of the loader. -/
theorem c10_nonobject_attribute_error (path : String) (doc : Json)
    (hno : ∀ fields, doc ≠ Json.obj fields) :
    load_payload path (LoadInput.parsed doc) = LoadResult.uncaughtExc "AttributeError" ∧
    ∀ msg, load_payload path (LoadInput.parsed doc) ≠ LoadResult.fatalExit msg := by
  cases doc with
  | obj fields => exact absurd rfl (hno fields)
  | null => exact ⟨rfl, fun msg hmsg => LoadResult.noConfusion hmsg⟩
  | bool b => exact ⟨rfl, fun msg hmsg => LoadResult.noConfusion hmsg⟩
  | num n => exact ⟨rfl, fun msg hmsg => LoadResult.noConfusion hmsg⟩
  | str s => exact ⟨rfl, fun msg hmsg => LoadResult.noConfusion hmsg⟩
  | arr elems => exact ⟨rfl, fun msg hmsg => LoadResult.noConfusion hmsg⟩

/-- C10 witness: a top-level JSON array. -/
theorem c10_nonobject_attribute_error_witness :
    load_payload "g.json" (LoadInput.parsed (Json.arr [])) =
      LoadResult.uncaughtExc "AttributeError" ∧
    ∀ msg, load_payload "g.json" (LoadInput.parsed (Json.arr [])) ≠ LoadResult.fatalExit msg :=
  c10_nonobject_attribute_error "g.json" (Json.arr [])
    (fun _ hf => Json.noConfusion hf)

end VerifyHmacV1
